import Mathlib

/-!
Shallow embedding of `src/ext/src/ruby_api/store.rs` (wasmtime-rb): the
`Store` / `StoreData` / `HostException` / `StoreContextValue` subsystem and
the `handle_wasm_error` exception-classification algorithm.

Modelling conventions:
- A Ruby `Value` (magnus) is opaque; we model it as an inductive with a
  distinguished `nil` (for `QNIL`) and opaque objects.
- A Ruby `Exception` is opaque (modelled by `Nat`); `BoxValue<Exception>`
  boxing is identity at this level of abstraction.
- A magnus `Error` is `RbError` below: `Error::from(Exception)` is
  `RbError.exception`, the `wasi_exit_error().new_instance((code,))` value is
  `RbError.exit`, a `Trap` converted into an error is `RbError.trap`, and
  the fallback built from an error message is `RbError.generic`.
- The low-level `anyhow::Error` returned by a VM call is `WasmError`:
  it either downcasts to `wasmtime_wasi::I32Exit`, can be interpreted as a
  `wasmtime::Trap`, or is something else carrying a textual description.
- `WrappedStruct<T>::get` either yields the wrapped struct or fails with the
  error it would raise; we model a `WrappedStruct T` as `Except RbError T`
  so that `get` is the identity.
- Interior mutability (`UnsafeCell` / `RefCell`) becomes explicit state
  passing: each mutating operation returns the post-state next to its result.
-/

/-- A host (Ruby) value: either the designated nil (`QNIL`) or an opaque
object identified by a number. -/
inductive Value where
  | nil : Value
  | obj : Nat → Value
deriving DecidableEq, Repr

/-- An opaque host exception value (magnus `Exception`). -/
abbrev RbException := Nat

/-- An opaque WASI context (`wasmtime_wasi::WasiCtx`). -/
abbrev WasiCtx := Nat

/-- A host-level (magnus) `Error` value, as produced by the store subsystem. -/
inductive RbError where
  | exception : RbException → RbError
  | exit : Int → RbError
  | trap : String → RbError
  | generic : String → RbError
deriving DecidableEq, Repr

/-- The low-level `anyhow::Error` coming back from a VM call: it either
contains an `I32Exit` (deliberate process-exit request), contains a
`wasmtime::Trap`, or is some other error with a textual description. -/
inductive WasmError where
  | i32Exit : Int → WasmError
  | trap : String → WasmError
  | other : String → WasmError
deriving DecidableEq, Repr

/-- `error.downcast_ref::<I32Exit>()`: succeeds exactly when the low-level
error is a process-exit request, yielding its status code (`exit.0`). -/
def WasmError.downcastI32Exit : WasmError → Option Int
  | .i32Exit code => some code
  | _ => none

/-- The textual description of a low-level error (its `Display` output),
used by the `error!("{}", e)` fallback. -/
def WasmError.description : WasmError → String
  | .i32Exit code => "Exited with i32 exit status " ++ toString code
  | .trap m => m
  | .other m => m

/-- A host-level `Trap` wrapper (from `trap.rs`, external to this file's
source) carrying the trap's descriptive message. -/
structure Trap where
  message : String
deriving DecidableEq, Repr

/-- Modelled from the spec: `Trap::try_from(error)` for `anyhow::Error`
(the impl lives in `src/ext/src/ruby_api/trap.rs`, which is not under
`src/`). Per the spec (section 4.5 step 4), it attempts to interpret the
low-level error as a VM trap; on failure the original error is given back
(it is the `e` formatted by the fallback `error!("{}", e)`). -/
def Trap.try_from : WasmError → Except WasmError Trap
  | .trap m => .ok ⟨m⟩
  | e => .error e

/-- `impl From<Trap> for Error`: a `Trap` converted into a host-level error. -/
def Trap.toError (t : Trap) : RbError := .trap t.message

/-- `HostException(Option<BoxValue<Exception>>)`: single-slot holder for a
pending host-raised exception. -/
structure HostException where
  val : Option RbException
deriving DecidableEq, Repr

/-- `HostException::take`: `std::mem::take(&mut self.0)` removes and returns
the pending exception, leaving the slot empty. -/
def HostException.take (h : HostException) : Option RbException × HostException :=
  (h.val, ⟨none⟩)

/-- `HostException::hold`: stores `e`, discarding any previous value. -/
def HostException.hold (_ : HostException) (e : RbException) : HostException :=
  ⟨some e⟩

/-- `HostException::default()`: the empty slot. -/
def HostException.default : HostException := ⟨none⟩

/-- `StoreData`: the payload record the VM associates with one store. -/
structure StoreData where
  user_data : Value
  host_exception : HostException
  wasi : Option WasiCtx
deriving DecidableEq, Repr

/-- `StoreData::take_last_error`: takes the pending exception and converts
it with `Error::from`, signalling `none` when the slot was empty. Returns
the result together with the post-state. -/
def StoreData.take_last_error (d : StoreData) : Option RbError × StoreData :=
  let (e, h) := d.host_exception.take
  (e.map RbError.exception, { d with host_exception := h })

/-- `StoreData::user_data`: read-only accessor to the opaque payload. -/
def StoreData.userData (d : StoreData) : Value := d.user_data

/-- `StoreData::has_wasi_ctx`: `self.wasi.is_some()`. -/
def StoreData.has_wasi_ctx (d : StoreData) : Bool := d.wasi.isSome

/-- `StoreData::wasi_ctx_mut`: `self.wasi.as_mut().expect(...)`. The
`expect` panic (an abort, not a recoverable error) is modelled by `none`;
`some` is the returned context. -/
def StoreData.wasi_ctx_mut (d : StoreData) : Option WasiCtx := d.wasi

/-- `Store`: one VM execution context (`StoreImpl<StoreData>`, whose only
observable component here is its `StoreData`) plus the retained-value list
`refs: RefCell<Vec<Value>>`. The engine is external and carries no state
observable by this subsystem. -/
structure Store where
  inner : StoreData
  refs : List Value
deriving DecidableEq, Repr

/-- `Store::retain`: `self.refs.borrow_mut().push(value)`. -/
def Store.retain (s : Store) (v : Value) : Store :=
  { s with refs := s.refs ++ [v] }

/-- `Store::new(args)`: an optional user payload defaulting to `QNIL`; the
store starts with an empty `HostException`, no WASI context and empty
`refs`, then immediately retains the payload. (The engine argument and
`scan_args` arity checking are external; we model a successful call.) -/
def Store.new (user_data : Option Value) : Store :=
  let ud := user_data.getD Value.nil
  let store : Store :=
    { inner := { user_data := ud, host_exception := HostException.default, wasi := none }
      refs := [] }
  store.retain ud

/-- `Store::data`: `self.context().data().user_data()`. -/
def Store.data (s : Store) : Value := s.inner.userData

/-- `Store::mark` (the `DataTypeFunctions::mark` impl): the traversal the
host garbage collector runs visits each value of `refs` in order. -/
def Store.mark (s : Store) : List Value := s.refs

/-- A `WrappedStruct<T>`: either the live wrapped struct, or the error its
`get()` raises when the underlying Ruby object is invalid. -/
def WrappedStruct (T : Type) : Type := Except RbError T

/-- `WrappedStruct::get`. -/
def WrappedStruct.get {T : Type} (w : WrappedStruct T) : Except RbError T := w

/-- `WasiCtxBuilder::build_context()` is external
(`src/ext/src/ruby_api/wasi_ctx_builder.rs` is not under `src/`); per the
spec a builder either materializes a context or fails with its own error,
so a builder is modelled by the outcome of `build_context`. -/
def WasiCtxBuilder : Type := Except RbError WasiCtx

/-- `WasiCtxBuilder::build_context`. -/
def WasiCtxBuilder.build_context (b : WasiCtxBuilder) : Except RbError WasiCtx := b

/-- `Store::configure_wasi(rb_self, wasi_config)`:
`rb_self.get()?.context_mut().data_mut().wasi = Some(wasi_config.build_context()?)`.
Rust evaluates the assignment's right operand first, so a builder failure
propagates before `rb_self.get()` runs. Returns the `Result` together with
the post-state of the wrapped store (unchanged whenever an error is
returned). On success the result is `Ok(rb_self)`, i.e. the same (now
updated) store handle. -/
def Store.configure_wasi (rb_self : WrappedStruct Store) (wasi_config : WasiCtxBuilder) :
    Except RbError (WrappedStruct Store) × WrappedStruct Store :=
  match wasi_config.build_context with
  | .error e => (.error e, rb_self)
  | .ok ctx =>
    match rb_self.get with
    | .error e => (.error e, rb_self)
    | .ok s =>
      let s2 : Store := { s with inner := { s.inner with wasi := some ctx } }
      (.ok (.ok s2), .ok s2)

/-- Modelled from the spec: a `Caller` (`src/ext/src/ruby_api/func.rs` is
not under `src/`) is a transient view of an execution context; its own
(narrower) context accessor either yields the `StoreData` of the context it
borrows or fails when the call frame has ended. -/
structure Caller where
  ctx : Except RbError StoreData

/-- `StoreContextValue`: tagged choice between a wrapped `Store` and a
wrapped `Caller`. -/
inductive StoreContextValue where
  | store : WrappedStruct Store → StoreContextValue
  | caller : WrappedStruct Caller → StoreContextValue

/-- `StoreContextValue::context_mut`, projected to the `StoreData` the
exclusive view exposes: `Store`-backed values go through `store.get()?`
(the store's own `context_mut` cannot fail), `Caller`-backed values through
`caller.get()?.context_mut()`. -/
def StoreContextValue.context_mut : StoreContextValue → Except RbError StoreData
  | .store w => w.get.map (fun s => s.inner)
  | .caller w => w.get.bind (fun c => c.ctx)

/-- Writing the mutated `StoreData` back through the exclusive view (the
effect of mutating through `data_mut()` in the source). -/
def StoreContextValue.setData : StoreContextValue → StoreData → StoreContextValue
  | .store (.ok s), d => .store (.ok { s with inner := d })
  | .caller (.ok c), d => .caller (.ok ⟨c.ctx.map (fun _ => d)⟩)
  | scv, _ => scv

/-- `StoreContextValue::mark`: `Store`-backed delegates to the store's
traversal; `Caller`-backed is a deliberate no-op. -/
def StoreContextValue.mark : StoreContextValue → List Value
  | .store (.ok s) => s.mark
  | _ => []

/-- `StoreContextValue::handle_wasm_error(error)`: obtain the exclusive
context; on failure return that error. Otherwise `take_last_error()`;
a pending host exception wins. Otherwise downcast to `I32Exit` for the
exit error, then `Trap::try_from` for a trap error, else the generic
`error!("{}", e)`. Returns the host-level error with the post-state. -/
def StoreContextValue.handle_wasm_error (scv : StoreContextValue) (err : WasmError) :
    RbError × StoreContextValue :=
  match scv.context_mut with
  | .ok d =>
    let (last, d2) := d.take_last_error
    let scv2 := scv.setData d2
    match last with
    | some e => (e, scv2)
    | none =>
      match err.downcastI32Exit with
      | some code => (RbError.exit code, scv2)
      | none =>
        match Trap.try_from err with
        | .ok t => (t.toError, scv2)
        | .error e => (RbError.generic e.description, scv2)
  | .error e => (e, scv)

/-- Following the spec's words (section 4.5), the five-step strict priority
order of the exception-classification algorithm, written from the spec for
comparison with the source's `handle_wasm_error`: (1) context access error,
(2) pending host exception, (3) process-exit with its code, (4) VM trap,
(5) generic error from the textual description. -/
def classify_spec (scv : StoreContextValue) (err : WasmError) : RbError :=
  match scv.context_mut with
  | .error e => e
  | .ok d =>
    match d.host_exception.val with
    | some e => RbError.exception e
    | none =>
      match err with
      | .i32Exit code => RbError.exit code
      | .trap m => RbError.trap m
      | .other m => RbError.generic m

lemma handle_wasm_error_fst_eq (scv : StoreContextValue) (err : WasmError) :
    (scv.handle_wasm_error err).1 = classify_spec scv err := by
  unfold StoreContextValue.handle_wasm_error classify_spec
  cases hc : scv.context_mut with
  | error e => rfl
  | ok d =>
    simp only [StoreData.take_last_error, HostException.take]
    cases hv : d.host_exception.val with
    | some e => rfl
    | none =>
      cases err <;>
        simp [WasmError.downcastI32Exit, Trap.try_from, Trap.toError, WasmError.description]

lemma handle_wasm_error_snd_eq (scv : StoreContextValue) (err : WasmError) :
    (scv.handle_wasm_error err).2 =
      match scv.context_mut with
      | .ok d => scv.setData { d with host_exception := HostException.default }
      | .error _ => scv := by
  unfold StoreContextValue.handle_wasm_error
  cases hc : scv.context_mut with
  | error e => rfl
  | ok d =>
    simp only [StoreData.take_last_error, HostException.take, HostException.default]
    cases hv : d.host_exception.val with
    | some e => rfl
    | none =>
      cases err <;>
        simp [WasmError.downcastI32Exit, Trap.try_from, Trap.toError, WasmError.description]

lemma setData_context_mut (scv : StoreContextValue) (d d2 : StoreData)
    (hctx : scv.context_mut = .ok d) :
    (scv.setData d2).context_mut = .ok d2 := by
  cases scv with
  | store w =>
    cases w with
    | ok s => rfl
    | error e => simp [StoreContextValue.context_mut, WrappedStruct.get, Except.map] at hctx
  | caller w =>
    cases w with
    | ok c =>
      cases hcc : c.ctx with
      | ok d3 =>
        simp [StoreContextValue.setData, StoreContextValue.context_mut,
          WrappedStruct.get, Except.bind, hcc, Except.map]
      | error e =>
        simp [StoreContextValue.context_mut, WrappedStruct.get, Except.bind, hcc] at hctx
    | error e => simp [StoreContextValue.context_mut, WrappedStruct.get, Except.bind] at hctx

lemma foldl_retain_refs (vs : List Value) (s : Store) :
    (vs.foldl Store.retain s).refs = s.refs ++ vs := by
  induction vs generalizing s with
  | nil => simp
  | cons v vs ih => simp [List.foldl, ih, Store.retain]

/-- C1: for every low-level VM error and every `StoreContextValue` whose
exclusive context view can be obtained, if a host exception is pending in
the store's `HostException` slot, `handle_wasm_error` returns that host
exception converted to a host-level error, regardless of whether the
low-level error is a trap, a process-exit request, or anything else. -/
theorem host_exception_takes_priority (scv : StoreContextValue) (err : WasmError)
    (d : StoreData) (e : RbException)
    (hctx : scv.context_mut = .ok d) (hpend : d.host_exception.val = some e) :
    (scv.handle_wasm_error err).1 = RbError.exception e := by
  rw [handle_wasm_error_fst_eq]
  unfold classify_spec
  rw [hctx]
  simp [hpend]

/-- Witness for C1: a store-backed context with pending exception `5`, hit
by a VM trap; the reported error is the exception. -/
theorem host_exception_takes_priority_witness :
    ((StoreContextValue.store
        (.ok ⟨⟨Value.nil, ⟨some 5⟩, none⟩, []⟩)).handle_wasm_error
      (WasmError.trap "unreachable")).1 = RbError.exception 5 :=
  host_exception_takes_priority _ _ ⟨Value.nil, ⟨some 5⟩, none⟩ 5 rfl rfl

/-- C2: `handle_wasm_error` classifies in the spec's strict priority order:
context access error first, then pending host exception, then process-exit
with exactly its code, then VM trap, then the generic error built from the
textual description — i.e. it agrees with `classify_spec`, the order as the
spec states it. -/
theorem handle_wasm_error_classification_order (scv : StoreContextValue) (err : WasmError) :
    (scv.handle_wasm_error err).1 = classify_spec scv err :=
  handle_wasm_error_fst_eq scv err

/-- C3: the `HostException` slot holds at most one value: a second `hold`
overwrites the first, `take` after `hold(e1); hold(e2)` returns `e2` and
leaves the slot empty, and `take` on the empty slot returns none and leaves
the slot empty (idempotent). -/
theorem host_exception_single_slot_last_write_wins (h : HostException)
    (e1 e2 : RbException) :
    ((h.hold e1).hold e2).take = (some e2, HostException.default) ∧
    HostException.default.take = (none, HostException.default) :=
  ⟨rfl, rfl⟩

/-- C4: `configure_wasi` with a builder whose context materialization fails
returns the builder's error and leaves the wrapped store's state — in
particular its WASI field — unchanged; on success it installs the built
context and returns the same (updated) store handle. -/
theorem configure_wasi_failure_leaves_wasi_unchanged (w : WrappedStruct Store)
    (e : RbError) (s : Store) (ctx : WasiCtx) :
    Store.configure_wasi w (.error e) = (.error e, w) ∧
    Store.configure_wasi (.ok s) (.ok ctx) =
      (.ok (.ok { s with inner := { s.inner with wasi := some ctx } }),
       .ok { s with inner := { s.inner with wasi := some ctx } }) :=
  ⟨rfl, rfl⟩

/-- C5: `data()` on a store built by `new(engine, payload)` returns the
payload, and returns nil when the payload argument was omitted. -/
theorem store_data_returns_payload (v : Value) :
    (Store.new (some v)).data = v ∧ (Store.new none).data = Value.nil :=
  ⟨rfl, rfl⟩

/-- C6: a freshly constructed store has `has_wasi_ctx() = false`, and after
any successful `configure_wasi` call (live wrapper, builder succeeds) the
store's `has_wasi_ctx()` returns true. -/
theorem has_wasi_ctx_tracks_configuration (p : Option Value) (s : Store) (ctx : WasiCtx) :
    (Store.new p).inner.has_wasi_ctx = false ∧
    ∃ s2, Store.configure_wasi (.ok s) (.ok ctx) = (.ok (.ok s2), .ok s2) ∧
      s2.inner.has_wasi_ctx = true :=
  ⟨rfl, _, rfl, rfl⟩

/-- C7: after `retain` is called with the values `vs` on a fresh store, the
mark traversal visits exactly the construction-time payload followed by
`vs` — no loss, no duplication beyond what was retained; and no store
operation removes a value from the retained list: `retain` only appends,
while `configure_wasi` and `handle_wasm_error` leave `refs` untouched. -/
theorem mark_visits_exactly_retained_values (p : Option Value) (vs : List Value)
    (s : Store) (v : Value) (w : WrappedStruct Store) (b : WasiCtxBuilder)
    (scv : StoreContextValue) (err : WasmError) :
    (vs.foldl Store.retain (Store.new p)).mark = p.getD Value.nil :: vs ∧
    (s.retain v).refs = s.refs ++ [v] ∧
    Except.map Store.refs (Store.configure_wasi w b).2 = Except.map Store.refs w ∧
    ((scv.handle_wasm_error err).2).mark = scv.mark := by
  refine ⟨?_, rfl, ?_, ?_⟩
  · simp [Store.mark, foldl_retain_refs, Store.new, Store.retain]
  · cases b with
    | error e => rfl
    | ok ctx =>
      cases w with
      | error e => rfl
      | ok s2 => rfl
  · rw [handle_wasm_error_snd_eq]
    cases hc : scv.context_mut with
    | error e => rfl
    | ok d =>
      cases scv with
      | store w2 =>
        cases w2 with
        | ok s2 => rfl
        | error e => rfl
      | caller w2 =>
        cases w2 with
        | ok c => rfl
        | error e => rfl

/-- C8: `wasi_ctx_mut()` on a `StoreData` with no configured WASI context
fails fast (the abort branch, modelled by `none`) rather than returning a
context; under the precondition that a context is present it returns that
context, and in general the call returns normally exactly when
`has_wasi_ctx()` holds. -/
theorem wasi_ctx_mut_fail_fast_contract (u : Value) (h : HostException)
    (c : WasiCtx) (d : StoreData) :
    (StoreData.wasi_ctx_mut ⟨u, h, none⟩ = none) ∧
    (StoreData.wasi_ctx_mut ⟨u, h, some c⟩ = some c) ∧
    (d.wasi_ctx_mut).isSome = d.has_wasi_ctx :=
  ⟨rfl, rfl, rfl⟩

/-- C9: when the context is accessible and a host exception is pending,
`handle_wasm_error` consumes it: the call returns the exception, afterwards
the slot is empty, and a second call with the same low-level error
classifies it as exit, trap or generic instead of returning the exception
again. -/
theorem handle_wasm_error_consumes_pending_exception (scv : StoreContextValue)
    (err : WasmError) (d : StoreData) (e : RbException)
    (hctx : scv.context_mut = .ok d) (hpend : d.host_exception.val = some e) :
    (scv.handle_wasm_error err).1 = RbError.exception e ∧
    ((scv.handle_wasm_error err).2).context_mut =
      .ok { d with host_exception := HostException.default } ∧
    (((scv.handle_wasm_error err).2).handle_wasm_error err).1 =
      (match err with
       | .i32Exit code => RbError.exit code
       | .trap m => RbError.trap m
       | .other m => RbError.generic m) := by
  have hpost : ((scv.handle_wasm_error err).2).context_mut =
      .ok { d with host_exception := HostException.default } := by
    rw [handle_wasm_error_snd_eq, hctx]
    exact setData_context_mut scv d _ hctx
  refine ⟨?_, hpost, ?_⟩
  · rw [handle_wasm_error_fst_eq]
    unfold classify_spec
    rw [hctx]
    simp [hpend]
  · rw [handle_wasm_error_fst_eq]
    unfold classify_spec
    rw [hpost]
    cases err <;> simp [HostException.default]

/-- Witness for C9: a store-backed context with pending exception `7` and a
process-exit request with code `3`: the first call reports the exception,
empties the slot, and the second call reports the exit error. -/
theorem handle_wasm_error_consumes_pending_exception_witness :
    ((StoreContextValue.store
        (.ok ⟨⟨Value.nil, ⟨some 7⟩, none⟩, []⟩)).handle_wasm_error
      (WasmError.i32Exit 3)).1 = RbError.exception 7 ∧
    (((StoreContextValue.store
        (.ok ⟨⟨Value.nil, ⟨some 7⟩, none⟩, []⟩)).handle_wasm_error
      (WasmError.i32Exit 3)).2).context_mut =
        .ok ⟨Value.nil, HostException.default, none⟩ ∧
    ((((StoreContextValue.store
        (.ok ⟨⟨Value.nil, ⟨some 7⟩, none⟩, []⟩)).handle_wasm_error
      (WasmError.i32Exit 3)).2).handle_wasm_error (WasmError.i32Exit 3)).1 =
        RbError.exit 3 :=
  handle_wasm_error_consumes_pending_exception _ _ ⟨Value.nil, ⟨some 7⟩, none⟩ 7 rfl rfl

/-- C10: immediately after a successful `Store::new`, the retained list
contains exactly one element, the user payload; when the payload was
omitted the default nil value itself is retained. -/
theorem new_store_retains_exactly_payload (v : Value) :
    (Store.new (some v)).refs = [v] ∧ (Store.new none).refs = [Value.nil] :=
  ⟨rfl, rfl⟩
